import Mathlib

/-!
Shallow embedding of the Werewolf game engine (src/engine/types.ts,
src/engine/utils.ts, src/engine/win.ts, src/engine/transitions.ts,
src/server/chat.ts, src/shared/messages.ts) and proofs about it.

Modelling conventions:
- TS `number` fields are embedded as `Int` (counters, timestamps, durations)
  or `Nat` (counts); no overflow is relevant at the scales used.
- JS objects used as string-keyed records (`nightVotes`, `dayNominations`,
  `verdictVotes`, the vote tally `Map`) are embedded as insertion-ordered
  association lists; updating an existing key keeps its position, a new key
  is appended, matching JS object / Map iteration order semantics.
- Thrown `GameRuleError`s are embedded as `Except GameRuleError`.
- The injectable randomness source (`RandomFn`, a function returning a float
  in [0,1)) is embedded as a rational argument; `Math.floor(r * n)` becomes
  the integer floor, and an out-of-range index yields `none` exactly as a JS
  out-of-bounds access yields `undefined`.
- `clonePlayers` performs a structural per-player copy in TS; under Lean's
  value semantics it is the identity.
-/

namespace Werewolf

inductive Role
  | SUBJECT
  | TRAITOR
deriving DecidableEq

inductive Phase
  | LOBBY
  | NIGHT
  | DAY_DISCUSSION
  | TRIAL
  | DAY_VERDICT
  | GAME_OVER
deriving DecidableEq

inductive Winner
  | TRAITORS
  | SUBJECTS
  | DRAW
deriving DecidableEq

inductive VerdictChoice
  | HANG
  | SPARE
deriving DecidableEq

structure Player where
  accountId : String
  playerId : String
  name : String
  role : Role
  alive : Bool
  connected : Bool
  isHost : Bool
deriving DecidableEq

structure PlayerIdentity where
  accountId : String
  playerId : String
  name : String
  isHost : Option Bool := none
deriving DecidableEq

structure Durations where
  night : Int
  dayDiscussion : Int
  trial : Int
  dayVerdict : Int
deriving DecidableEq

structure GameOptions where
  minPlayers : Nat
  durations : Durations
deriving DecidableEq

structure GameState where
  gameId : String
  players : List Player
  phase : Phase
  dayNumber : Int
  nightNumber : Int
  accusedId : Option String
  lastKilledId : Option String
  phaseEndsAt : Int
  winner : Option Winner
  options : GameOptions
  rolesAssigned : Bool
  nightVotes : List (String × Option String)
  dayNominations : List (String × Option String)
  verdictVotes : List (String × Option VerdictChoice)
deriving DecidableEq

structure GameRuleError where
  code : String
  message : String
deriving DecidableEq

/-! ## utils.ts -/

/-- `getPlayer`: first player with the given id, null when missing. -/
def getPlayer (players : List Player) (playerId : String) : Option Player :=
  players.find? (fun p => p.playerId == playerId)

/-- `clonePlayers`: structural per-player copy; the identity under value semantics. -/
def clonePlayers (players : List Player) : List Player :=
  players

/-- `countAlive(players, role?)`: alive players, optionally filtered by role. -/
def countAlive (players : List Player) (role : Option Role) : Nat :=
  (players.filter (fun p =>
    p.alive && (match role with | none => true | some r => decide (p.role = r)))).length

/-- `livingPlayers`: only the living players. -/
def livingPlayers (players : List Player) : List Player :=
  players.filter (fun p => p.alive)

/-- `majorityThreshold`: strict majority, floor(n/2) + 1. -/
def majorityThreshold (aliveCount : Nat) : Nat :=
  aliveCount / 2 + 1

/-- `randomItem(items, random)`: throws on an empty list, otherwise indexes at
`Math.floor(random * items.length)`; an out-of-range index is JS `undefined`,
embedded as `none`. -/
def randomItem (items : List String) (random : ℚ) : Except GameRuleError (Option String) :=
  if items.length = 0 then
    .error ⟨"EMPTY_SELECTION", "Cannot select from empty list"⟩
  else
    let i : Int := ⌊random * (items.length : ℚ)⌋
    if 0 ≤ i then .ok items[i.toNat]? else .ok none

/-! ## Record (JS object / Map) helpers -/

/-- JS record update `{...m, [k]: v}`: replace in place when the key exists,
append otherwise. -/
def setKey {α : Type} (m : List (String × α)) (k : String) (v : α) : List (String × α) :=
  if m.any (fun e => e.1 == k) then
    m.map (fun e => if e.1 == k then (e.1, v) else e)
  else
    m ++ [(k, v)]

/-- One `tally.set(target, (tally.get(target) ?? 0) + 1)` step on a JS `Map`. -/
def bumpTally (tally : List (String × Nat)) (target : String) : List (String × Nat) :=
  if tally.any (fun e => e.1 == target) then
    tally.map (fun e => if e.1 == target then (e.1, e.2 + 1) else e)
  else
    tally ++ [(target, 1)]

/-- `tallyVotes`: count votes per non-null target, in first-vote insertion order. -/
def tallyVotes (votes : List (String × Option String)) : List (String × Nat) :=
  votes.foldl (fun tally e =>
    match e.2 with
    | none => tally
    | some target => bumpTally tally target) []

/-- `tally.get(target) ?? 0`. -/
def lookupTally (tally : List (String × Nat)) (target : String) : Nat :=
  match tally.find? (fun e => e.1 == target) with
  | some e => e.2
  | none => 0

/-- `Math.max(...tally.values())` over a non-empty tally (0 when empty; the
empty case is guarded in `resolveNight`). -/
def topTallyScore (tally : List (String × Nat)) : Nat :=
  (tally.map (fun e => e.2)).foldl max 0

/-- The targets holding the maximum tally, in tally order. -/
def tallyLeaders (tally : List (String × Nat)) : List String :=
  (tally.filter (fun e => decide (e.2 = topTallyScore tally))).map (fun e => e.1)

/-- Mutating the player object returned by `getPlayer` sets `alive = false` on
the first player with the given id. -/
def killFirst (players : List Player) (victimId : String) : List Player :=
  match players with
  | [] => []
  | p :: rest =>
    if p.playerId == victimId then { p with alive := false } :: rest
    else p :: killFirst rest victimId

/-! ## win.ts -/

/-- `checkWin`: returns a pre-set winner unchanged, else decides from the
living composition (draw on zero alive, subjects once traitors are gone,
traitors on parity or better). -/
def checkWin (state : GameState) : Option Winner :=
  match state.winner with
  | some w => some w
  | none =>
    let subjectsAlive := countAlive state.players (some Role.SUBJECT)
    let traitorsAlive := countAlive state.players (some Role.TRAITOR)
    let totalAlive := subjectsAlive + traitorsAlive
    if totalAlive = 0 then some Winner.DRAW
    else if traitorsAlive = 0 then some Winner.SUBJECTS
    else if traitorsAlive ≥ subjectsAlive then some Winner.TRAITORS
    else none

/-! ## transitions.ts -/

def DEFAULT_GAME_OPTIONS : GameOptions :=
  { minPlayers := 6
    durations := { night := 90000, dayDiscussion := 90000, trial := 30000, dayVerdict := 15000 } }

structure DurationOverrides where
  night : Option Int := none
  dayDiscussion : Option Int := none
  trial : Option Int := none
  dayVerdict : Option Int := none
deriving DecidableEq

structure GameOptionsOverrides where
  minPlayers : Option Nat := none
  durations : Option DurationOverrides := none
deriving DecidableEq

/-- `mergeOptions`: spread the overrides over the defaults, field by field. -/
def mergeOptions (overrides : Option GameOptionsOverrides) : GameOptions :=
  let od := overrides.bind (fun o => o.durations)
  let d := DEFAULT_GAME_OPTIONS.durations
  { minPlayers := (overrides.bind (fun o => o.minPlayers)).getD DEFAULT_GAME_OPTIONS.minPlayers
    durations :=
      { night := (od.bind (fun x => x.night)).getD d.night
        dayDiscussion := (od.bind (fun x => x.dayDiscussion)).getD d.dayDiscussion
        trial := (od.bind (fun x => x.trial)).getD d.trial
        dayVerdict := (od.bind (fun x => x.dayVerdict)).getD d.dayVerdict } }

/-- `ensurePhase`: typed rejection unless the phase is allowed. -/
def ensurePhase (game : GameState) (allowed : List Phase) (message : String) :
    Except GameRuleError Unit :=
  if game.phase ∈ allowed then .ok () else .error ⟨"INVALID_PHASE", message⟩

/-- `assertPlayer`: look up a player, rejecting when missing or (when
required) dead. -/
def assertPlayer (game : GameState) (playerId : String) (mustBeAlive : Bool) :
    Except GameRuleError Player :=
  match getPlayer game.players playerId with
  | none => .error ⟨"PLAYER_NOT_FOUND", "Player " ++ playerId ++ " not found"⟩
  | some player =>
    if mustBeAlive && !player.alive then
      .error ⟨"PLAYER_DEAD", "Player " ++ playerId ++ " is dead"⟩
    else .ok player

/-- `toPlayer`: seat an identity as a living, connected subject. -/
def toPlayer (identity : PlayerIdentity) : Player :=
  { accountId := identity.accountId
    playerId := identity.playerId
    name := identity.name
    role := Role.SUBJECT
    alive := true
    connected := true
    isHost := identity.isHost.getD false }

/-- `createInitialGame`: a fresh lobby seeded with the host. -/
def createInitialGame (gameId : String) (hostIdentity : PlayerIdentity)
    (overrides : Option GameOptionsOverrides) : GameState :=
  { gameId := gameId
    players := [toPlayer { hostIdentity with isHost := some true }]
    phase := Phase.LOBBY
    dayNumber := 1
    nightNumber := 1
    accusedId := none
    lastKilledId := none
    phaseEndsAt := 0
    winner := none
    options := mergeOptions overrides
    rolesAssigned := false
    nightVotes := []
    dayNominations := []
    verdictVotes := [] }

/-- `startNight`: allowed from LOBBY, DAY_DISCUSSION or DAY_VERDICT; rebuilds
the night ballots with one null entry per living traitor; increments the
night counter unless coming from LOBBY. Note: the source has no
`rolesAssigned` guard. -/
def startNight (game : GameState) (now : Int) : Except GameRuleError GameState :=
  match ensurePhase game [Phase.LOBBY, Phase.DAY_DISCUSSION, Phase.DAY_VERDICT]
      "Night can only start from lobby or day phases" with
  | .error e => .error e
  | .ok _ =>
    let nightNumber := if game.phase = Phase.LOBBY then game.nightNumber else game.nightNumber + 1
    let traitors := (livingPlayers game.players).filter (fun p => decide (p.role = Role.TRAITOR))
    let nightVotes : List (String × Option String) := traitors.map (fun t => (t.playerId, none))
    .ok { game with
          phase := Phase.NIGHT
          nightNumber := nightNumber
          accusedId := none
          dayNominations := []
          verdictVotes := []
          nightVotes := nightVotes
          phaseEndsAt := now + game.options.durations.night }

/-- `recordNightVote`: phase NIGHT, voter alive and a traitor, target alive;
records the vote in the night ballot map. -/
def recordNightVote (game : GameState) (traitorId targetId : String) :
    Except GameRuleError GameState :=
  match ensurePhase game [Phase.NIGHT] "Night votes only apply during the night phase" with
  | .error e => .error e
  | .ok _ =>
    match assertPlayer game traitorId true with
    | .error e => .error e
    | .ok traitor =>
      if decide (traitor.role = Role.TRAITOR) then
        match assertPlayer game targetId true with
        | .error e => .error e
        | .ok target =>
          .ok { game with
                nightVotes := setKey game.nightVotes traitor.playerId (some target.playerId) }
      else .error ⟨"NOT_A_TRAITOR", "Only traitors vote at night"⟩

/-- The tail of `resolveNight` (transitions.ts lines 214-233): evaluate the
win condition on the base state, go to GAME_OVER on a winner, advance into
the next day's discussion otherwise. -/
def nightFinish (game baseState : GameState) (now : Int) : Except GameRuleError GameState :=
  match checkWin baseState with
  | some winner =>
    .ok { baseState with
          phase := Phase.GAME_OVER
          winner := some winner
          dayNominations := []
          verdictVotes := [] }
  | none =>
    .ok { baseState with
          phase := Phase.DAY_DISCUSSION
          dayNumber := game.dayNumber + 1
          accusedId := none
          dayNominations := []
          verdictVotes := []
          phaseEndsAt := now + game.options.durations.dayDiscussion }

/-- `resolveNight`: tally night votes, kill the top target (random tiebreak)
if still alive, then either finish the game or enter the next day. -/
def resolveNight (game : GameState) (now : Int) (random : ℚ) :
    Except GameRuleError GameState :=
  match ensurePhase game [Phase.NIGHT] "Night resolution only runs from the night phase" with
  | .error e => .error e
  | .ok _ =>
    let players := clonePlayers game.players
    let votes := tallyVotes game.nightVotes
    let killedResult : Except GameRuleError (List Player × Option String) :=
      if votes.length > 0 then
        let leaders := tallyLeaders votes
        let victimIdE : Except GameRuleError (Option String) :=
          if leaders.length = 1 then .ok leaders.head? else randomItem leaders random
        match victimIdE with
        | .error e => .error e
        | .ok victimId =>
          match victimId.bind (fun vid => getPlayer players vid) with
          | some victim =>
            if victim.alive then .ok (killFirst players victim.playerId, some victim.playerId)
            else .ok (players, none)
          | none => .ok (players, none)
      else .ok (players, none)
    match killedResult with
    | .error e => .error e
    | .ok (players2, killed) =>
      let baseState : GameState :=
        { game with players := players2, lastKilledId := killed, nightVotes := [], phaseEndsAt := now }
      nightFinish game baseState now

/-- `startTrial`: from DAY_DISCUSSION, with a living accused. -/
def startTrial (game : GameState) (accusedId : String) (now : Int) :
    Except GameRuleError GameState :=
  match ensurePhase game [Phase.DAY_DISCUSSION] "Trials start from day discussion" with
  | .error e => .error e
  | .ok _ =>
    match assertPlayer game accusedId true with
    | .error e => .error e
    | .ok _ =>
      .ok { game with
            phase := Phase.TRIAL
            accusedId := some accusedId
            verdictVotes := []
            phaseEndsAt := now + game.options.durations.trial }

/-- `recordNomination`: record a living voter's nomination of a living target;
start the trial once the target's tally reaches the strict majority of the
living-player count taken at the start of the action. -/
def recordNomination (game : GameState) (voterId targetId : String) (now : Int) :
    Except GameRuleError GameState :=
  match ensurePhase game [Phase.DAY_DISCUSSION] "Nominations only apply during day discussion" with
  | .error e => .error e
  | .ok _ =>
    match assertPlayer game voterId true with
    | .error e => .error e
    | .ok voter =>
      match assertPlayer game targetId true with
      | .error e => .error e
      | .ok target =>
        let updated : GameState :=
          { game with dayNominations := setKey game.dayNominations voter.playerId (some target.playerId) }
        let tally := tallyVotes updated.dayNominations
        let alive := (livingPlayers game.players).length
        let threshold := majorityThreshold alive
        let votesForTarget := lookupTally tally target.playerId
        if votesForTarget ≥ threshold then startTrial updated target.playerId now
        else .ok updated

/-- The HANG/SPARE counting loop of `resolveDayVerdict`: skip null ballots and
voters not in the living-id set. -/
def countVerdict (verdictVotes : List (String × Option VerdictChoice)) (livingIds : List String) :
    Nat × Nat :=
  verdictVotes.foldl
    (fun acc e =>
      match e.2 with
      | none => acc
      | some c =>
        if livingIds.contains e.1 then
          match c with
          | VerdictChoice.HANG => (acc.1 + 1, acc.2)
          | VerdictChoice.SPARE => (acc.1, acc.2 + 1)
        else acc)
    (0, 0)

/-- The tail of `resolveDayVerdict` (transitions.ts lines 336-341): evaluate
the win condition on the base state, go to GAME_OVER on a winner, re-enter
night otherwise. -/
def verdictFinish (baseState : GameState) (now : Int) : Except GameRuleError GameState :=
  match checkWin baseState with
  | some winner => .ok { baseState with phase := Phase.GAME_OVER, winner := some winner }
  | none => startNight baseState now

/-- `resolveDayVerdict`: count HANG vs SPARE among cast ballots of living
voters, hang the accused on a strict HANG majority, then either finish the
game or re-enter night. -/
def resolveDayVerdict (game : GameState) (now : Int) : Except GameRuleError GameState :=
  match ensurePhase game [Phase.DAY_VERDICT] "Resolve verdict only from verdict phase" with
  | .error e => .error e
  | .ok _ =>
    match game.accusedId with
    | none => .error ⟨"NO_ACCUSED", "No accused player to resolve"⟩
    | some accusedId =>
      let players := clonePlayers game.players
      let livingIds := (livingPlayers players).map (fun p => p.playerId)
      let counts := countVerdict game.verdictVotes livingIds
      let hangVotes := counts.1
      let spareVotes := counts.2
      let accused := getPlayer players accusedId
      let killAccused :=
        decide (hangVotes > spareVotes) &&
          (match accused with | some p => p.alive | none => false)
      let players2 := if killAccused then killFirst players accusedId else players
      let killed : Option String := if killAccused then some accusedId else none
      let baseState : GameState :=
        { game with
          players := players2
          lastKilledId := match killed with | some k => some k | none => game.lastKilledId
          verdictVotes := []
          accusedId := none
          phaseEndsAt := now }
      verdictFinish baseState now

/-! ## server/chat.ts -/

inductive ChatChannel
  | LOBBY
  | DAY
  | NIGHT_TRAITORS
  | TRIAL
  | GAME_OVER
deriving DecidableEq

inductive ChatAudience
  | ROOM
  | TRAITORS_ONLY
deriving DecidableEq

structure ChatRoute where
  channel : ChatChannel
  audience : ChatAudience
deriving DecidableEq

/-- `resolveChatRoute`: which chat channel a sender may use in the current
phase, and who receives it; typed rejection when chat is disallowed. -/
def resolveChatRoute (game : GameState) (sender : Player) : Except GameRuleError ChatRoute :=
  match game.phase with
  | Phase.LOBBY => .ok ⟨ChatChannel.LOBBY, ChatAudience.ROOM⟩
  | Phase.DAY_DISCUSSION =>
    if !sender.alive then .error ⟨"INVALID_CHAT", "Dead players cannot chat during day"⟩
    else .ok ⟨ChatChannel.DAY, ChatAudience.ROOM⟩
  | Phase.DAY_VERDICT =>
    if !sender.alive then .error ⟨"INVALID_CHAT", "Dead players cannot chat during day"⟩
    else .ok ⟨ChatChannel.DAY, ChatAudience.ROOM⟩
  | Phase.TRIAL => .error ⟨"INVALID_CHAT", "Use TRIAL_CHAT during trial"⟩
  | Phase.NIGHT =>
    if !sender.alive || !(decide (sender.role = Role.TRAITOR)) then
      .error ⟨"INVALID_CHAT", "Only living traitors may chat at night"⟩
    else .ok ⟨ChatChannel.NIGHT_TRAITORS, ChatAudience.TRAITORS_ONLY⟩
  | Phase.GAME_OVER => .ok ⟨ChatChannel.GAME_OVER, ChatAudience.ROOM⟩

/-! ## shared/messages.ts -/

structure PublicPlayerView where
  playerId : String
  name : String
  alive : Bool
  connected : Bool
  isHost : Bool
deriving DecidableEq

structure SelfPlayerView where
  playerId : String
  name : String
  alive : Bool
  connected : Bool
  isHost : Bool
  role : Role
deriving DecidableEq

structure GameView where
  gameId : String
  phase : Phase
  dayNumber : Int
  nightNumber : Int
  accusedId : Option String
  lastKilledId : Option String
  phaseEndsAt : Int
  winner : Option Winner
  players : List PublicPlayerView
  you : SelfPlayerView
deriving DecidableEq

/-- The public projection of one player (no role field). -/
def toPublicPlayerView (p : Player) : PublicPlayerView :=
  { playerId := p.playerId, name := p.name, alive := p.alive
    connected := p.connected, isHost := p.isHost }

/-- `buildGameView`: the viewer-scoped redacted view; throws a plain `Error`
when the viewer is not seated. -/
def buildGameView (game : GameState) (viewerId : String) : Except String GameView :=
  match getPlayer game.players viewerId with
  | none => .error "Viewer is not part of the game"
  | some viewer =>
    .ok { gameId := game.gameId
          phase := game.phase
          dayNumber := game.dayNumber
          nightNumber := game.nightNumber
          accusedId := game.accusedId
          lastKilledId := game.lastKilledId
          phaseEndsAt := game.phaseEndsAt
          winner := game.winner
          players := game.players.map toPublicPlayerView
          you := { playerId := viewer.playerId
                   name := viewer.name
                   alive := viewer.alive
                   connected := viewer.connected
                   isHost := viewer.isHost
                   role := viewer.role } }

/-! ## Spec-side definitions used by the theorems -/

/-- Whether the (first) player with the given id is currently alive. -/
def isAliveIn (game : GameState) (pid : String) : Bool :=
  match getPlayer game.players pid with
  | some p => p.alive
  | none => false

/-- Whether some living player carries the given id (the living-id set the
verdict count is taken against). -/
def isLivingId (players : List Player) (pid : String) : Bool :=
  ((livingPlayers players).map (fun p => p.playerId)).contains pid

/-- HANG ballots that are cast and whose voter is currently living. -/
def specHang (game : GameState) : Nat :=
  (game.verdictVotes.filter (fun e =>
    decide (e.2 = some VerdictChoice.HANG) && isLivingId game.players e.1)).length

/-- SPARE ballots that are cast and whose voter is currently living. -/
def specSpare (game : GameState) : Nat :=
  (game.verdictVotes.filter (fun e =>
    decide (e.2 = some VerdictChoice.SPARE) && isLivingId game.players e.1)).length

/-- Number of living players. -/
def numAlive (game : GameState) : Nat :=
  (game.players.filter (fun p => p.alive)).length

/-- Number of living traitors. -/
def numAliveTraitors (game : GameState) : Nat :=
  (game.players.filter (fun p => p.alive && decide (p.role = Role.TRAITOR))).length

/-- Number of living subjects. -/
def numAliveSubjects (game : GameState) : Nat :=
  (game.players.filter (fun p => p.alive && decide (p.role = Role.SUBJECT))).length

/-- A player with all-default boring fields, as the unit tests build them. -/
def mkPlayer (id : String) (role : Role) (alive : Bool) : Player :=
  { accountId := id, playerId := id, name := id, role := role
    alive := alive, connected := true, isHost := false }

/-- A freshly created single-host lobby: `rolesAssigned = false`. -/
def freshLobby : GameState :=
  createInitialGame "g" { accountId := "host", playerId := "host", name := "Host" } none

/-- A NIGHT snapshot whose night-vote map is empty although a living traitor
is seated (the repository test fixture for the scheduled-voter check). -/
def unscheduledNight : GameState :=
  { gameId := "game"
    players := [mkPlayer "t1" Role.TRAITOR true, mkPlayer "s1" Role.SUBJECT true]
    phase := Phase.NIGHT
    dayNumber := 1
    nightNumber := 1
    accusedId := none
    lastKilledId := none
    phaseEndsAt := 0
    winner := none
    options := DEFAULT_GAME_OPTIONS
    rolesAssigned := true
    nightVotes := []
    dayNominations := []
    verdictVotes := [] }

/-- A snapshot with zero living players but a pre-set winner field. -/
def presetWinnerState : GameState :=
  { gameId := "g"
    players := []
    phase := Phase.GAME_OVER
    dayNumber := 1
    nightNumber := 1
    accusedId := none
    lastKilledId := none
    phaseEndsAt := 0
    winner := some Winner.TRAITORS
    options := DEFAULT_GAME_OPTIONS
    rolesAssigned := true
    nightVotes := []
    dayNominations := []
    verdictVotes := [] }

/-- A two-player parity snapshot (one living subject, one living traitor),
with no winner recorded yet. -/
def parityState : GameState :=
  { presetWinnerState with
    players := [mkPlayer "s1" Role.SUBJECT true, mkPlayer "t1" Role.TRAITOR true]
    phase := Phase.DAY_DISCUSSION
    winner := none }

/-! ## C1, C2, C7: the code at the failing inputs -/

/-- C1: the claim that every Rules Engine transition preserves the snapshot
invariants fails in the code: `startNight` applied to a fresh lobby (which
satisfies the invariants, with `rolesAssigned = false` and phase LOBBY)
returns a NIGHT snapshot that still has `rolesAssigned = false`, breaking
the invariant `rolesAssigned = false implies phase = LOBBY` that the
repository documents in its own `GameState` doc comment. -/
theorem startNight_breaks_rolesAssigned_invariant :
    ∃ s, startNight freshLobby 0 = Except.ok s ∧
      s.rolesAssigned = false ∧ s.phase = Phase.NIGHT :=
  ⟨_, rfl, rfl, rfl⟩

/-- C2: the claim that starting night from a lobby with unassigned roles
raises a typed rejection fails in the code: `startNight` has no
`rolesAssigned` guard and advances the fresh lobby straight to NIGHT,
contradicting the repository test that expects a `GameRuleError` here. -/
theorem startNight_from_unassigned_lobby_not_rejected :
    freshLobby.phase = Phase.LOBBY ∧ freshLobby.rolesAssigned = false ∧
      ∃ s, startNight freshLobby 0 = Except.ok s ∧ s.phase = Phase.NIGHT :=
  ⟨rfl, rfl, _, rfl, rfl⟩

/-- C7: the claim that a living traitor who is not a registered ballot holder
in the night-vote map is rejected fails in the code: `recordNightVote` never
consults the ballot map, so on a NIGHT snapshot with an empty night-vote map
it records the vote and succeeds, contradicting the repository test that
expects a `GameRuleError` for a voter not scheduled to vote. -/
theorem recordNightVote_without_ballot_entry_succeeds :
    unscheduledNight.nightVotes = [] ∧
      recordNightVote unscheduledNight "t1" "s1" =
        Except.ok { unscheduledNight with nightVotes := [("t1", some "s1")] } :=
  ⟨rfl, rfl⟩

/-! ## C6: the Win Evaluator -/

/-- C6 counterexample: on a snapshot with zero living players but a pre-set
winner, `checkWin` returns the stored winner, not DRAW as the claim (read
over every snapshot) demands. -/
theorem checkWin_preset_winner_cex :
    (presetWinnerState.players.filter (fun p => p.alive)).length = 0 ∧
      checkWin presetWinnerState = some Winner.TRAITORS ∧
      checkWin presetWinnerState ≠ some Winner.DRAW :=
  ⟨rfl, rfl, by decide⟩

/-- Living players split into living subjects and living traitors. -/
lemma alive_partition (ps : List Player) :
    (ps.filter (fun p => p.alive)).length =
      (ps.filter (fun p => p.alive && decide (p.role = Role.SUBJECT))).length +
        (ps.filter (fun p => p.alive && decide (p.role = Role.TRAITOR))).length := by
  induction ps with
  | nil => rfl
  | cons p rest ih =>
    cases ha : p.alive <;> cases hr : p.role <;>
      simp [List.filter_cons, ha, hr, ih] <;> omega

/-- C6 (amended): on every snapshot whose `winner` field is still null, the
Win Evaluator returns DRAW when zero players are alive; SUBJECTS when at
least one player is alive and zero traitors are alive; TRAITORS when the
living-traitor count is at least the living-subject count; and null
otherwise. (With a non-null `winner` the stored winner is returned.) -/
theorem checkWin_composition (g : GameState) (hw : g.winner = none) :
    (numAlive g = 0 → checkWin g = some Winner.DRAW) ∧
    (numAlive g ≠ 0 → numAliveTraitors g = 0 → checkWin g = some Winner.SUBJECTS) ∧
    (numAliveTraitors g ≠ 0 → numAliveSubjects g ≤ numAliveTraitors g →
      checkWin g = some Winner.TRAITORS) ∧
    (numAliveTraitors g ≠ 0 → numAliveTraitors g < numAliveSubjects g →
      checkWin g = none) := by
  have hpart := alive_partition g.players
  simp only [checkWin, hw, countAlive, numAlive, numAliveTraitors, numAliveSubjects] at *
  refine ⟨fun h1 => ?_, fun h1 h2 => ?_, fun h1 h2 => ?_, fun h1 h2 => ?_⟩ <;>
    split_ifs <;> first | rfl | (exfalso; omega)

/-- Witness for the amended C6: the parity snapshot has one living subject
and one living traitor and no stored winner, and `checkWin` declares the
traitors the winners. -/
theorem checkWin_composition_witness :
    parityState.winner = none ∧ numAliveTraitors parityState ≠ 0 ∧
      numAliveSubjects parityState ≤ numAliveTraitors parityState ∧
      checkWin parityState = some Winner.TRAITORS := by
  refine ⟨rfl, by decide, by decide, ?_⟩
  exact (checkWin_composition parityState rfl).2.2.1 (by decide) (by decide)

/-! ## C8: the Chat Router -/

/-- C8: per-phase chat routing. LOBBY admits anyone to the room-wide lobby
channel; DAY_DISCUSSION and DAY_VERDICT admit only living senders to the
room-wide day channel and reject dead senders with the dead-player-specific
error; TRIAL rejects the generic channel for everyone; NIGHT admits only
living traitors to the traitors-only night channel and rejects everyone
else; GAME_OVER admits anyone to the room-wide game-over channel. -/
theorem resolveChatRoute_policy (game : GameState) (sender : Player) :
    (game.phase = Phase.LOBBY →
      resolveChatRoute game sender = .ok ⟨ChatChannel.LOBBY, ChatAudience.ROOM⟩) ∧
    ((game.phase = Phase.DAY_DISCUSSION ∨ game.phase = Phase.DAY_VERDICT) →
      (sender.alive = true →
        resolveChatRoute game sender = .ok ⟨ChatChannel.DAY, ChatAudience.ROOM⟩) ∧
      (sender.alive = false →
        resolveChatRoute game sender =
          .error ⟨"INVALID_CHAT", "Dead players cannot chat during day"⟩)) ∧
    (game.phase = Phase.TRIAL →
      resolveChatRoute game sender = .error ⟨"INVALID_CHAT", "Use TRIAL_CHAT during trial"⟩) ∧
    (game.phase = Phase.NIGHT →
      (sender.alive = true → sender.role = Role.TRAITOR →
        resolveChatRoute game sender =
          .ok ⟨ChatChannel.NIGHT_TRAITORS, ChatAudience.TRAITORS_ONLY⟩) ∧
      (sender.alive = false ∨ sender.role ≠ Role.TRAITOR →
        resolveChatRoute game sender =
          .error ⟨"INVALID_CHAT", "Only living traitors may chat at night"⟩)) ∧
    (game.phase = Phase.GAME_OVER →
      resolveChatRoute game sender = .ok ⟨ChatChannel.GAME_OVER, ChatAudience.ROOM⟩) := by
  cases hph : game.phase <;>
    simp only [resolveChatRoute, hph] <;>
    refine ⟨?_, ?_, ?_, ?_, ?_⟩ <;>
    intro h <;> first
      | rfl
      | simp_all

/-- Witness for C8: at a concrete NIGHT snapshot, a living traitor is routed
to the traitors-only night channel, and a living subject is rejected. -/
theorem resolveChatRoute_policy_witness :
    unscheduledNight.phase = Phase.NIGHT ∧
      resolveChatRoute unscheduledNight (mkPlayer "t1" Role.TRAITOR true) =
        .ok ⟨ChatChannel.NIGHT_TRAITORS, ChatAudience.TRAITORS_ONLY⟩ ∧
      resolveChatRoute unscheduledNight (mkPlayer "s1" Role.SUBJECT true) =
        .error ⟨"INVALID_CHAT", "Only living traitors may chat at night"⟩ := by
  refine ⟨rfl, ?_, ?_⟩
  · exact ((resolveChatRoute_policy unscheduledNight
      (mkPlayer "t1" Role.TRAITOR true)).2.2.2.1 rfl).1 rfl rfl
  · exact ((resolveChatRoute_policy unscheduledNight
      (mkPlayer "s1" Role.SUBJECT true)).2.2.2.1 rfl).2 (Or.inr (by decide))

/-! ## Guard lemmas -/

lemma ensurePhase_ok (game : GameState) (allowed : List Phase) (msg : String)
    (h : game.phase ∈ allowed) : ensurePhase game allowed msg = .ok () := by
  simp [ensurePhase, h]

lemma assertPlayer_ok_of_alive (game : GameState) (pid : String)
    (h : isAliveIn game pid = true) :
    ∃ p, assertPlayer game pid true = .ok p ∧
      getPlayer game.players pid = some p ∧ p.alive = true ∧ p.playerId = pid := by
  unfold isAliveIn at h
  cases hg : getPlayer game.players pid with
  | none => rw [hg] at h; exact absurd h (by simp)
  | some p =>
    rw [hg] at h
    simp only at h
    have hbeq : (fun q : Player => q.playerId == pid) p = true := by
      have hg2 := hg
      unfold getPlayer at hg2
      exact @List.find?_some Player (fun q => q.playerId == pid) p game.players hg2
    refine ⟨p, ?_, rfl, h, eq_of_beq hbeq⟩
    simp [assertPlayer, hg, h]

/-! ## C5: majority nominations -/

/-- C5: in DAY_DISCUSSION, a nomination by a living voter of a living target
starts the trial with that target as accused exactly when the target's
nomination tally (after recording this nomination) reaches the strict
majority floor(livingCount/2) + 1 of the living-player count taken at the
start of the action; below the threshold the snapshot only gains the
recorded nomination. -/
theorem recordNomination_majority_spec (game : GameState) (voterId targetId : String) (now : Int)
    (hph : game.phase = Phase.DAY_DISCUSSION)
    (hv : isAliveIn game voterId = true) (ht : isAliveIn game targetId = true) :
    ∃ g', recordNomination game voterId targetId now = Except.ok g' ∧
      (lookupTally (tallyVotes (setKey game.dayNominations voterId (some targetId))) targetId ≥
          majorityThreshold (livingPlayers game.players).length →
        g'.phase = Phase.TRIAL ∧ g'.accusedId = some targetId) ∧
      (lookupTally (tallyVotes (setKey game.dayNominations voterId (some targetId))) targetId <
          majorityThreshold (livingPlayers game.players).length →
        g' = { game with dayNominations := setKey game.dayNominations voterId (some targetId) }) := by
  obtain ⟨pv, hpv, hgv, hav, hidv⟩ := assertPlayer_ok_of_alive game voterId hv
  obtain ⟨pt, hpt, hgt, hat, hidt⟩ := assertPlayer_ok_of_alive game targetId ht
  have hmem : game.phase ∈ [Phase.DAY_DISCUSSION] := by simp [hph]
  have hens := ensurePhase_ok game [Phase.DAY_DISCUSSION]
    "Nominations only apply during day discussion" hmem
  simp only [recordNomination, hens, hpv, hpt, hidv, hidt]
  by_cases hif :
      lookupTally (tallyVotes (setKey game.dayNominations voterId (some targetId))) targetId ≥
        majorityThreshold (livingPlayers game.players).length
  · simp only [if_pos hif]
    have hens2 : ensurePhase
        { game with dayNominations := setKey game.dayNominations voterId (some targetId) }
        [Phase.DAY_DISCUSSION] "Trials start from day discussion" = .ok () := by
      simp [ensurePhase, hph]
    have hass2 : assertPlayer
        { game with dayNominations := setKey game.dayNominations voterId (some targetId) }
        targetId true = .ok pt := by
      simp [assertPlayer, getPlayer] at hpt ⊢
      unfold getPlayer at hgt
      simp [hgt, hat]
    simp only [startTrial, hens2, hass2]
    exact ⟨_, rfl, fun _ => ⟨rfl, rfl⟩, fun hlt => absurd hif (by omega)⟩
  · simp only [if_neg hif]
    exact ⟨_, rfl, fun hge => absurd hge hif, fun _ => rfl⟩

/-- A five-living-player DAY_DISCUSSION snapshot with the given prior
nominations. -/
def dayFive (noms : List (String × Option String)) : GameState :=
  { presetWinnerState with
    players := [mkPlayer "p1" Role.SUBJECT true, mkPlayer "p2" Role.SUBJECT true,
                mkPlayer "p3" Role.SUBJECT true, mkPlayer "p4" Role.SUBJECT true,
                mkPlayer "p5" Role.TRAITOR true]
    phase := Phase.DAY_DISCUSSION
    winner := none
    dayNominations := noms }

/-- Witness for C5: with 5 living players (threshold 3), a third nomination
for the same target starts the trial, while a second nomination does not. -/
theorem recordNomination_majority_witness :
    (∃ g', recordNomination (dayFive [("p1", some "p5"), ("p2", some "p5")]) "p3" "p5" 0 =
        Except.ok g' ∧ g'.phase = Phase.TRIAL ∧ g'.accusedId = some "p5") ∧
    (∃ g', recordNomination (dayFive [("p1", some "p5")]) "p2" "p5" 0 =
        Except.ok g' ∧ g'.phase = Phase.DAY_DISCUSSION ∧ g'.accusedId = none) := by
  constructor
  · obtain ⟨g', hok, htrial, _⟩ := recordNomination_majority_spec
      (dayFive [("p1", some "p5"), ("p2", some "p5")]) "p3" "p5" 0 rfl (by decide) (by decide)
    obtain ⟨h1, h2⟩ := htrial (by decide)
    exact ⟨g', hok, h1, h2⟩
  · obtain ⟨g', hok, _, hstay⟩ := recordNomination_majority_spec
      (dayFive [("p1", some "p5")]) "p2" "p5" 0 rfl (by decide) (by decide)
    have hg := hstay (by decide)
    exact ⟨g', hok, by rw [hg]; rfl, by rw [hg]; rfl⟩

/-! ## C3 and C10: verdict resolution -/

lemma countVerdict_foldl (votes : List (String × Option VerdictChoice)) (f : String → Bool)
    (acc : Nat × Nat) :
    votes.foldl
      (fun acc e =>
        match e.2 with
        | none => acc
        | some c =>
          if f e.1 then
            match c with
            | VerdictChoice.HANG => (acc.1 + 1, acc.2)
            | VerdictChoice.SPARE => (acc.1, acc.2 + 1)
          else acc) acc =
      (acc.1 + (votes.filter (fun e =>
          decide (e.2 = some VerdictChoice.HANG) && f e.1)).length,
       acc.2 + (votes.filter (fun e =>
          decide (e.2 = some VerdictChoice.SPARE) && f e.1)).length) := by
  induction votes generalizing acc with
  | nil => simp
  | cons e rest ih =>
    obtain ⟨k, c⟩ := e
    cases c with
    | none =>
      rw [List.foldl_cons, ih]
      simp [List.filter_cons]
    | some ch =>
      cases ch <;> cases hf : f k <;>
        rw [List.foldl_cons, ih] <;>
        simp [List.filter_cons, hf, Prod.ext_iff] <;> omega

lemma countVerdict_eq (votes : List (String × Option VerdictChoice)) (livingIds : List String) :
    countVerdict votes livingIds =
      ((votes.filter (fun e =>
          decide (e.2 = some VerdictChoice.HANG) && livingIds.contains e.1)).length,
       (votes.filter (fun e =>
          decide (e.2 = some VerdictChoice.SPARE) && livingIds.contains e.1)).length) := by
  unfold countVerdict
  rw [countVerdict_foldl votes (fun s => livingIds.contains s)]
  simp

/-- Killing the first player carrying an id flips exactly that player's
`alive` flag, as seen through `getPlayer`. -/
lemma getPlayer_killFirst (ps : List Player) (vid x : String) :
    getPlayer (killFirst ps vid) x =
      if x = vid then (getPlayer ps x).map (fun p => { p with alive := false })
      else getPlayer ps x := by
  induction ps with
  | nil =>
    simp only [killFirst, getPlayer, List.find?_nil]
    split <;> rfl
  | cons p rest ih =>
    by_cases hp : (p.playerId == vid)
    · have hpv : p.playerId = vid := eq_of_beq hp
      by_cases hx : x = vid
      · subst hx
        simp [killFirst, getPlayer, hp, List.find?_cons, hpv]
      · have hppx : (p.playerId == x) = false := by
          rw [hpv]; exact beq_eq_false_iff_ne.mpr (fun h => hx h.symm)
        simp [killFirst, getPlayer, hp, List.find?_cons, hppx, hx]
    · have hpb : (p.playerId == vid) = false := by simpa using hp
      by_cases hpx : (p.playerId == x)
      · have hxn : ¬(x = vid) := by
          intro hxv
          rw [eq_of_beq hpx, hxv] at hpb
          simp at hpb
        simp [killFirst, getPlayer, hpb, List.find?_cons, hpx, hxn]
      · have hpxb : (p.playerId == x) = false := by simpa using hpx
        have ihx := ih
        unfold getPlayer at ihx
        simp [killFirst, getPlayer, hpb, List.find?_cons, hpxb, ihx]

/-- `startNight` succeeds from any allowed phase, keeping players, the
last-killed id, a cleared accusation and empty verdict ballots. -/
lemma startNight_fields (game : GameState) (now : Int)
    (h : game.phase ∈ [Phase.LOBBY, Phase.DAY_DISCUSSION, Phase.DAY_VERDICT]) :
    ∃ s, startNight game now = Except.ok s ∧ s.players = game.players ∧
      s.lastKilledId = game.lastKilledId ∧ s.accusedId = none ∧ s.verdictVotes = [] := by
  simp only [startNight, ensurePhase_ok _ _ _ h]
  exact ⟨_, rfl, rfl, rfl, rfl, rfl⟩

/-- Proof-side closed form of the base state `resolveDayVerdict` builds
before evaluating the win condition. -/
def verdictBase (game : GameState) (now : Int) (a : String) : GameState :=
  { game with
    players := if decide (specHang game > specSpare game) && isAliveIn game a
      then killFirst game.players a else game.players
    lastKilledId := if decide (specHang game > specSpare game) && isAliveIn game a
      then some a else game.lastKilledId
    verdictVotes := []
    accusedId := none
    phaseEndsAt := now }

/-- The boolean kill test of `resolveDayVerdict` as a proposition. -/
lemma killCond_bool (game : GameState) (a : String) :
    ((decide (specHang game > specSpare game) && isAliveIn game a) = true) ↔
      (specHang game > specSpare game ∧ isAliveIn game a = true) := by
  simp [Bool.and_eq_true, decide_eq_true_eq]

/-- `verdictFinish` keeps players, the last-killed id, a cleared accusation
and empty verdict ballots, whichever branch it takes. -/
lemma verdictFinish_fields (base : GameState) (now : Int)
    (hph : base.phase = Phase.DAY_VERDICT)
    (hacc : base.accusedId = none) (hvv : base.verdictVotes = []) :
    ∃ g', verdictFinish base now = Except.ok g' ∧ g'.players = base.players ∧
      g'.lastKilledId = base.lastKilledId ∧ g'.accusedId = none ∧ g'.verdictVotes = [] := by
  unfold verdictFinish
  cases hcw : checkWin base with
  | some w => exact ⟨_, rfl, rfl, rfl, hacc, hvv⟩
  | none => exact startNight_fields base now (by simp [hph])

/-- Under the phase and accused guards, `resolveDayVerdict` is
`verdictFinish` of the closed-form base state. -/
lemma resolveDayVerdict_as_base (game : GameState) (now : Int) (a : String)
    (hph : game.phase = Phase.DAY_VERDICT) (ha : game.accusedId = some a) :
    resolveDayVerdict game now = verdictFinish (verdictBase game now a) now := by
  have hmem : game.phase ∈ [Phase.DAY_VERDICT] := by simp [hph]
  have hens := ensurePhase_ok game [Phase.DAY_VERDICT] "Resolve verdict only from verdict phase" hmem
  have hcounts : countVerdict game.verdictVotes
      ((livingPlayers game.players).map (fun p => p.playerId)) =
      (specHang game, specSpare game) := by
    rw [countVerdict_eq]
    simp only [specHang, specSpare, isLivingId]
  have haccused : (match getPlayer game.players a with
      | some p => p.alive | none => false) = isAliveIn game a := rfl
  simp only [resolveDayVerdict, clonePlayers, hens, ha, hcounts, haccused, verdictBase]
  cases hk : (decide (specHang game > specSpare game) && isAliveIn game a) <;> simp [hk]

/-- Closed form of `resolveDayVerdict` on the fields the claims touch: the
accused dies exactly on a strict HANG majority over cast ballots of living
voters while still alive; `lastKilledId` keeps its prior value otherwise;
the accusation and the verdict ballots are always cleared. -/
lemma resolveDayVerdict_closed (game : GameState) (now : Int) (a : String)
    (hph : game.phase = Phase.DAY_VERDICT) (ha : game.accusedId = some a) :
    ∃ g', resolveDayVerdict game now = Except.ok g' ∧
      g'.players = (if specHang game > specSpare game ∧ isAliveIn game a = true
        then killFirst game.players a else game.players) ∧
      g'.lastKilledId = (if specHang game > specSpare game ∧ isAliveIn game a = true
        then some a else game.lastKilledId) ∧
      g'.accusedId = none ∧ g'.verdictVotes = [] := by
  rw [resolveDayVerdict_as_base game now a hph ha]
  obtain ⟨g', hg, hp, hl, hacc2, hvv2⟩ := verdictFinish_fields (verdictBase game now a) now
    (by simp [verdictBase, hph]) (by simp [verdictBase]) (by simp [verdictBase])
  refine ⟨g', hg, ?_, ?_, hacc2, hvv2⟩
  · rw [hp]
    simp only [verdictBase]
    rcases Decidable.em (specHang game > specSpare game ∧ isAliveIn game a = true) with hc | hc
    · rw [if_pos ((killCond_bool game a).mpr hc), if_pos hc]
    · rw [if_neg (fun hb => hc ((killCond_bool game a).mp hb)), if_neg hc]
  · rw [hl]
    simp only [verdictBase]
    rcases Decidable.em (specHang game > specSpare game ∧ isAliveIn game a = true) with hc | hc
    · rw [if_pos ((killCond_bool game a).mpr hc), if_pos hc]
    · rw [if_neg (fun hb => hc ((killCond_bool game a).mp hb)), if_neg hc]

/-- C3: in DAY_VERDICT with an accused, `resolveDayVerdict` counts HANG vs
SPARE only over cast ballots whose voter is currently living (`specHang` and
`specSpare` are exactly those filtered counts); the accused's alive flag is
cleared exactly when HANG strictly exceeds SPARE and the accused is alive,
every other player's alive flag is untouched, and on a tie (including 0-0)
everyone, the accused included, keeps their alive flag. -/
theorem resolveDayVerdict_count_and_kill (game : GameState) (now : Int) (a : String)
    (hph : game.phase = Phase.DAY_VERDICT) (ha : game.accusedId = some a) :
    ∃ g', resolveDayVerdict game now = Except.ok g' ∧
      (∀ x, isAliveIn g' x =
        (if x = a ∧ specHang game > specSpare game ∧ isAliveIn game a = true
         then false else isAliveIn game x)) ∧
      g'.lastKilledId = (if specHang game > specSpare game ∧ isAliveIn game a = true
        then some a else game.lastKilledId) := by
  obtain ⟨g', hok, hpl, hlk, _, _⟩ := resolveDayVerdict_closed game now a hph ha
  refine ⟨g', hok, ?_, hlk⟩
  intro x
  by_cases hkill : specHang game > specSpare game ∧ isAliveIn game a = true
  · rw [if_pos hkill] at hpl
    unfold isAliveIn
    rw [hpl, getPlayer_killFirst]
    by_cases hx : x = a
    · subst hx
      rw [if_pos rfl, if_pos ⟨rfl, hkill⟩]
      cases getPlayer game.players x <;> rfl
    · rw [if_neg hx, if_neg (fun hc => hx hc.1)]
  · rw [if_neg hkill] at hpl
    unfold isAliveIn
    rw [hpl, if_neg (fun hc => hkill hc.2)]

/-- A DAY_VERDICT snapshot with three living voters whose ballots are HANG,
SPARE and not-yet-cast, the third voter being the accused. -/
def verdictTie : GameState :=
  { presetWinnerState with
    players := [mkPlayer "p1" Role.SUBJECT true, mkPlayer "p2" Role.SUBJECT true,
                mkPlayer "p3" Role.TRAITOR true]
    phase := Phase.DAY_VERDICT
    winner := none
    accusedId := some "p3"
    verdictVotes := [("p1", some VerdictChoice.HANG), ("p2", some VerdictChoice.SPARE),
                     ("p3", none)] }

/-- Witness for C3: on the tie snapshot only the two cast ballots count
(1 HANG, 1 SPARE) and the accused survives the resolution. -/
theorem resolveDayVerdict_count_and_kill_witness :
    specHang verdictTie = 1 ∧ specSpare verdictTie = 1 ∧
      ∃ g', resolveDayVerdict verdictTie 0 = Except.ok g' ∧ isAliveIn g' "p3" = true := by
  obtain ⟨g', hok, halive, _⟩ := resolveDayVerdict_count_and_kill verdictTie 0 "p3" rfl rfl
  refine ⟨by decide, by decide, g', hok, ?_⟩
  have hx := halive "p3"
  rw [if_neg (by decide)] at hx
  rw [hx]
  decide

/-- C10: when the verdict spares the accused (no strict HANG majority, or the
accused already dead), `resolveDayVerdict` leaves the player list and
`lastKilledId` unchanged while still clearing the accusation and the verdict
ballots. -/
theorem resolveDayVerdict_spare_frame (game : GameState) (now : Int) (a : String)
    (hph : game.phase = Phase.DAY_VERDICT) (ha : game.accusedId = some a)
    (hsp : ¬(specHang game > specSpare game) ∨ isAliveIn game a = false) :
    ∃ g', resolveDayVerdict game now = Except.ok g' ∧
      g'.players = game.players ∧ g'.lastKilledId = game.lastKilledId ∧
      g'.accusedId = none ∧ g'.verdictVotes = [] := by
  obtain ⟨g', hok, hpl, hlk, hacc, hvv⟩ := resolveDayVerdict_closed game now a hph ha
  have hcond : ¬(specHang game > specSpare game ∧ isAliveIn game a = true) := by
    rcases hsp with h | h
    · exact fun hc => h hc.1
    · intro hc
      rw [h] at hc
      exact Bool.false_ne_true hc.2
  rw [if_neg hcond] at hpl hlk
  exact ⟨g', hok, hpl, hlk, hacc, hvv⟩

/-- Witness for C10: on the tie snapshot the resolution keeps the players and
the prior `lastKilledId` while clearing the accusation and ballots. -/
theorem resolveDayVerdict_spare_frame_witness :
    ∃ g', resolveDayVerdict verdictTie 0 = Except.ok g' ∧
      g'.players = verdictTie.players ∧ g'.lastKilledId = verdictTie.lastKilledId ∧
      g'.accusedId = none ∧ g'.verdictVotes = [] :=
  resolveDayVerdict_spare_frame verdictTie 0 "p3" rfl rfl (Or.inl (by decide))

/-! ## C4: night resolution -/

lemma bumpTally_ne_nil (t : List (String × Nat)) (target : String) :
    bumpTally t target ≠ [] := by
  unfold bumpTally
  split
  · next hany =>
      intro h
      rw [List.map_eq_nil_iff] at h
      subst h
      simp at hany
  · simp

lemma tallyVotes_foldl_ne_nil (votes : List (String × Option String))
    (acc : List (String × Nat)) (hacc : acc ≠ []) :
    votes.foldl (fun tally e =>
      match e.2 with
      | none => tally
      | some target => bumpTally tally target) acc ≠ [] := by
  induction votes generalizing acc with
  | nil => simpa
  | cons e rest ih =>
    rw [List.foldl_cons]
    cases he : e.2 with
    | none => exact ih _ hacc
    | some target => exact ih _ (bumpTally_ne_nil _ _)

/-- At least one cast night vote makes the tally non-empty. -/
lemma tallyVotes_ne_nil (votes : List (String × Option String))
    (h : ∃ k t, (k, some t) ∈ votes) : tallyVotes votes ≠ [] := by
  obtain ⟨k, t, hmem⟩ := h
  unfold tallyVotes
  induction votes with
  | nil => simp at hmem
  | cons e rest ih =>
    rw [List.foldl_cons]
    rcases List.mem_cons.mp hmem with he | he
    · rw [← he]
      exact tallyVotes_foldl_ne_nil rest _ (bumpTally_ne_nil _ _)
    · cases hx : e.2 with
      | none => exact ih he
      | some target => exact tallyVotes_foldl_ne_nil rest _ (bumpTally_ne_nil _ _)

lemma foldl_max_mem (l : List Nat) (a : Nat) : l.foldl max a ∈ a :: l := by
  induction l generalizing a with
  | nil => simp
  | cons h t ih =>
    rw [List.foldl_cons]
    have hmem := ih (max a h)
    rcases List.mem_cons.mp hmem with h1 | h1
    · rcases max_choice a h with hm | hm
      · rw [h1, hm]
        exact List.mem_cons_self a (h :: t)
      · rw [h1, hm]
        exact List.mem_cons_of_mem a (List.mem_cons_self h t)
    · exact List.mem_cons_of_mem a (List.mem_cons_of_mem h h1)

/-- The maximum vote count is attained in a non-empty tally. -/
lemma topTallyScore_mem (tally : List (String × Nat)) (h : tally ≠ []) :
    topTallyScore tally ∈ tally.map (fun e => e.2) := by
  unfold topTallyScore
  cases tally with
  | nil => exact absurd rfl h
  | cons e rest =>
    rw [List.map_cons, List.foldl_cons, max_eq_right (Nat.zero_le e.2)]
    exact foldl_max_mem _ _

/-- A non-empty tally has at least one leader. -/
lemma tallyLeaders_ne_nil (tally : List (String × Nat)) (h : tally ≠ []) :
    tallyLeaders tally ≠ [] := by
  obtain ⟨e, hmem2, he⟩ := List.mem_map.mp (topTallyScore_mem tally h)
  unfold tallyLeaders
  intro hnil
  rw [List.map_eq_nil_iff] at hnil
  have hf : e ∈ tally.filter (fun x => decide (x.2 = topTallyScore tally)) :=
    List.mem_filter.mpr ⟨hmem2, by rw [decide_eq_true_eq]; exact he⟩
  rw [hnil] at hf
  simp at hf

/-- With a random draw in [0,1), `randomItem` on a non-empty list returns a
member of the list. -/
lemma randomItem_mem (items : List String) (r : ℚ) (hne : items ≠ [])
    (h0 : 0 ≤ r) (h1 : r < 1) :
    ∃ v, randomItem items r = Except.ok (some v) ∧ v ∈ items := by
  unfold randomItem
  have hlen : items.length ≠ 0 := fun h => hne (List.length_eq_zero.mp h)
  rw [if_neg hlen]
  have hlpos : (0 : ℚ) < (items.length : ℚ) := by
    have : 0 < items.length := Nat.pos_of_ne_zero hlen
    exact_mod_cast this
  have hi0 : 0 ≤ ⌊r * (items.length : ℚ)⌋ :=
    Int.floor_nonneg.mpr (mul_nonneg h0 (le_of_lt hlpos))
  have hilt : ⌊r * (items.length : ℚ)⌋ < (items.length : Int) := by
    have hmul : r * (items.length : ℚ) < (items.length : ℚ) := by
      have := mul_lt_mul_of_pos_right h1 hlpos
      rwa [one_mul] at this
    exact Int.floor_lt.mpr (by exact_mod_cast hmul)
  rw [if_pos hi0]
  have hnat : (⌊r * (items.length : ℚ)⌋).toNat < items.length := by omega
  refine ⟨items[(⌊r * (items.length : ℚ)⌋).toNat], ?_, List.getElem_mem hnat⟩
  rw [List.getElem?_eq_getElem hnat]

/-- The victim-lookup-and-kill step of `resolveNight`, as an if on the
victim's aliveness. -/
lemma killStep_cases (game : GameState) (v : String) :
    (match getPlayer game.players v with
     | some victim =>
       if victim.alive then
         (Except.ok (killFirst game.players victim.playerId, some victim.playerId) :
           Except GameRuleError (List Player × Option String))
       else .ok (game.players, none)
     | none => .ok (game.players, none)) =
      (if isAliveIn game v then .ok (killFirst game.players v, some v)
       else .ok (game.players, none)) := by
  unfold isAliveIn
  cases hg : getPlayer game.players v with
  | none => simp
  | some p =>
    have hpid : p.playerId = v := by
      have hg2 := hg
      unfold getPlayer at hg2
      exact eq_of_beq (@List.find?_some Player (fun q => q.playerId == v) p game.players hg2)
    cases hp : p.alive <;> simp [hp, hpid]

/-- `nightFinish` keeps players and the last-killed id, whichever branch it
takes. -/
lemma nightFinish_fields (game baseState : GameState) (now : Int) :
    ∃ g', nightFinish game baseState now = Except.ok g' ∧
      g'.players = baseState.players ∧ g'.lastKilledId = baseState.lastKilledId := by
  unfold nightFinish
  cases checkWin baseState with
  | some w => exact ⟨_, rfl, rfl, rfl⟩
  | none => exact ⟨_, rfl, rfl, rfl⟩

/-- Common tail of the C4 analysis: once the victim id is fixed, the
resolution kills the victim exactly when still alive, else leaves the
players untouched with a null `lastKilledId`. -/
lemma resolveNight_finish_with_victim (game : GameState) (now : Int) (v : String) :
    ∃ g', (match
        (if isAliveIn game v then
          (Except.ok (killFirst game.players v, some v) :
            Except GameRuleError (List Player × Option String))
         else .ok (game.players, none)) with
      | .error e => .error e
      | .ok (players2, killed) =>
        nightFinish game
          { game with players := players2, lastKilledId := killed,
                      nightVotes := [], phaseEndsAt := now } now) = Except.ok g' ∧
      (isAliveIn game v = true →
        g'.lastKilledId = some v ∧ isAliveIn g' v = false) ∧
      (isAliveIn game v = false →
        g'.lastKilledId = none ∧ g'.players = game.players) := by
  cases hal : isAliveIn game v with
  | true =>
    rw [if_pos rfl]
    obtain ⟨g', hg, hp, hl⟩ := nightFinish_fields game
      { game with players := killFirst game.players v, lastKilledId := some v,
                  nightVotes := [], phaseEndsAt := now } now
    refine ⟨g', hg, fun _ => ⟨hl, ?_⟩, fun hfalse => by simp at hfalse⟩
    unfold isAliveIn
    rw [hp]
    show (match getPlayer (killFirst game.players v) v with
      | some p => p.alive | none => false) = false
    rw [getPlayer_killFirst, if_pos rfl]
    cases getPlayer game.players v <;> rfl
  | false =>
    rw [if_neg (by simp [hal])]
    obtain ⟨g', hg, hp, hl⟩ := nightFinish_fields game
      { game with players := game.players, lastKilledId := none,
                  nightVotes := [], phaseEndsAt := now } now
    exact ⟨g', hg, fun htrue => by simp at htrue, fun _ => ⟨hl, hp⟩⟩

/-- C4: in NIGHT with at least one cast vote and a random draw in [0,1),
`resolveNight` succeeds and selects a victim among the targets tied for the
maximum tally — the unique top target when there is exactly one; when the
selected target is still alive it is killed and recorded in `lastKilledId`;
when it is already dead nobody is killed, `lastKilledId` is null and the
player list is untouched, with no error raised. -/
theorem resolveNight_kill_selection (game : GameState) (now : Int) (r : ℚ)
    (hph : game.phase = Phase.NIGHT)
    (hcast : ∃ k t, (k, some t) ∈ game.nightVotes)
    (hr0 : 0 ≤ r) (hr1 : r < 1) :
    ∃ g' victim, resolveNight game now r = Except.ok g' ∧
      victim ∈ tallyLeaders (tallyVotes game.nightVotes) ∧
      (∀ t, tallyLeaders (tallyVotes game.nightVotes) = [t] → victim = t) ∧
      (isAliveIn game victim = true →
        g'.lastKilledId = some victim ∧ isAliveIn g' victim = false) ∧
      (isAliveIn game victim = false →
        g'.lastKilledId = none ∧ g'.players = game.players) := by
  have hmem : game.phase ∈ [Phase.NIGHT] := by simp [hph]
  have hens := ensurePhase_ok game [Phase.NIGHT]
    "Night resolution only runs from the night phase" hmem
  have htal := tallyVotes_ne_nil game.nightVotes hcast
  have hlen : (tallyVotes game.nightVotes).length > 0 := List.length_pos.mpr htal
  have hlead := tallyLeaders_ne_nil (tallyVotes game.nightVotes) htal
  simp only [resolveNight, clonePlayers, hens, if_pos hlen]
  by_cases hone : (tallyLeaders (tallyVotes game.nightVotes)).length = 1
  · obtain ⟨v, hv⟩ := List.length_eq_one.mp hone
    rw [if_pos hone, hv]
    simp only [List.head?_cons, Option.some_bind, killStep_cases]
    obtain ⟨g', hg, hkill, hdead⟩ := resolveNight_finish_with_victim game now v
    exact ⟨g', v, hg, List.mem_cons_self v [],
      fun t ht => by simpa using ht, hkill, hdead⟩
  · rw [if_neg hone]
    obtain ⟨v, hrand, hvmem⟩ := randomItem_mem (tallyLeaders (tallyVotes game.nightVotes)) r
      hlead hr0 hr1
    rw [hrand]
    simp only [Option.some_bind, killStep_cases]
    obtain ⟨g', hg, hkill, hdead⟩ := resolveNight_finish_with_victim game now v
    refine ⟨g', v, hg, hvmem, fun t ht => absurd (by rw [ht]; rfl) hone, hkill, hdead⟩

/-- A NIGHT snapshot with two living traitors whose votes point at two
different living subjects: a 1-1 tie. -/
def nightTie : GameState :=
  { presetWinnerState with
    players := [mkPlayer "t1" Role.TRAITOR true, mkPlayer "t2" Role.TRAITOR true,
                mkPlayer "s1" Role.SUBJECT true, mkPlayer "s2" Role.SUBJECT true]
    phase := Phase.NIGHT
    winner := none
    nightVotes := [("t1", some "s1"), ("t2", some "s2")] }

/-- Witness for C4: on the tied night snapshot with random draw 0 the
resolution succeeds and the victim is one of the tied targets. -/
theorem resolveNight_kill_selection_witness :
    nightTie.phase = Phase.NIGHT ∧ ("t1", some "s1") ∈ nightTie.nightVotes ∧
      ∃ g' victim, resolveNight nightTie 0 0 = Except.ok g' ∧
        victim ∈ tallyLeaders (tallyVotes nightTie.nightVotes) := by
  obtain ⟨g', v, hok, hmem, -, -, -⟩ :=
    resolveNight_kill_selection nightTie 0 0 rfl ⟨"t1", "s1", by decide⟩
      (by norm_num) (by norm_num)
  exact ⟨rfl, by decide, g', v, hok, hmem⟩

/-! ## C9: view redaction and noninterference -/

/-- Two players equal on every field except possibly the hidden role. -/
def playerEqExceptRole (p q : Player) : Prop :=
  p.accountId = q.accountId ∧ p.playerId = q.playerId ∧ p.name = q.name ∧
    p.alive = q.alive ∧ p.connected = q.connected ∧ p.isHost = q.isHost

/-- Two snapshots that differ at most in the role fields of players other
than the viewer. -/
def agreeExceptOtherRoles (g1 g2 : GameState) (viewerId : String) : Prop :=
  g1.gameId = g2.gameId ∧ g1.phase = g2.phase ∧ g1.dayNumber = g2.dayNumber ∧
    g1.nightNumber = g2.nightNumber ∧ g1.accusedId = g2.accusedId ∧
    g1.lastKilledId = g2.lastKilledId ∧ g1.phaseEndsAt = g2.phaseEndsAt ∧
    g1.winner = g2.winner ∧
    List.Forall₂
      (fun p q => playerEqExceptRole p q ∧ (p.playerId = viewerId → p.role = q.role))
      g1.players g2.players

lemma toPublic_eq_of_eqExceptRole (p q : Player) (h : playerEqExceptRole p q) :
    toPublicPlayerView p = toPublicPlayerView q := by
  obtain ⟨h1, h2, h3, h4, h5, h6⟩ := h
  simp [toPublicPlayerView, h2, h3, h4, h5, h6]

lemma map_public_forall2 (vid : String) (l1 l2 : List Player)
    (h : List.Forall₂
      (fun p q => playerEqExceptRole p q ∧ (p.playerId = vid → p.role = q.role)) l1 l2) :
    l1.map toPublicPlayerView = l2.map toPublicPlayerView := by
  induction h with
  | nil => rfl
  | cons hpq hrest ih =>
    rename_i a b l1x l2x
    simp only [List.map_cons, toPublic_eq_of_eqExceptRole a b hpq.1, ih]

lemma find?_forall2 (vid : String) (l1 l2 : List Player)
    (h : List.Forall₂
      (fun p q => playerEqExceptRole p q ∧ (p.playerId = vid → p.role = q.role)) l1 l2) :
    (getPlayer l1 vid = none ∧ getPlayer l2 vid = none) ∨
      ∃ p q, getPlayer l1 vid = some p ∧ getPlayer l2 vid = some q ∧
        playerEqExceptRole p q ∧ p.role = q.role ∧ p.playerId = vid := by
  induction h with
  | nil => exact Or.inl ⟨rfl, rfl⟩
  | cons hpq hrest ih =>
    rename_i a b l1x l2x
    by_cases hp : (a.playerId == vid) = true
    · right
      have hpid : a.playerId = vid := eq_of_beq hp
      have hqid : (b.playerId == vid) = true := by
        rw [← hpq.1.2.1]
        exact hp
      exact ⟨a, b, by simp [getPlayer, List.find?_cons, hp],
        by simp [getPlayer, List.find?_cons, hqid], hpq.1, hpq.2 hpid, hpid⟩
    · have hpb : (a.playerId == vid) = false := by simpa using hp
      have hqb : (b.playerId == vid) = false := by
        rw [← hpq.1.2.1]
        exact hpb
      simpa [getPlayer, List.find?_cons, hpb, hqb] using ih

/-- C9: the redacted view for a seated viewer contains the room id, phase,
day and night counters, accused id, last-killed id, deadline, winner, the
public projection {playerId, name, alive, connected, isHost} of every
player, and a self view carrying the viewer's own role; and the view is
identical across any two snapshots that differ only in the role fields of
players other than the viewer. -/
theorem buildGameView_redaction (g1 g2 : GameState) (viewerId : String) (v : Player)
    (hdiff : agreeExceptOtherRoles g1 g2 viewerId)
    (hv : getPlayer g1.players viewerId = some v) :
    ∃ view, buildGameView g1 viewerId = Except.ok view ∧
      buildGameView g2 viewerId = Except.ok view ∧
      view.gameId = g1.gameId ∧ view.phase = g1.phase ∧ view.dayNumber = g1.dayNumber ∧
      view.nightNumber = g1.nightNumber ∧ view.accusedId = g1.accusedId ∧
      view.lastKilledId = g1.lastKilledId ∧ view.phaseEndsAt = g1.phaseEndsAt ∧
      view.winner = g1.winner ∧
      view.players = g1.players.map toPublicPlayerView ∧
      view.you.role = v.role := by
  obtain ⟨hgid, hph, hd, hn, hacc, hlk, hpe, hw, hfor⟩ := hdiff
  rcases find?_forall2 viewerId g1.players g2.players hfor with
    ⟨h1, h2⟩ | ⟨p, q, h1, h2, heq, hrole, hpid⟩
  · rw [hv] at h1
    cases h1
  · rw [hv] at h1
    injection h1 with h1
    subst h1
    unfold buildGameView
    rw [hv, h2]
    refine ⟨_, rfl, ?_, rfl, rfl, rfl, rfl, rfl, rfl, rfl, rfl, rfl, rfl⟩
    have hmap := map_public_forall2 viewerId g1.players g2.players hfor
    obtain ⟨e1, e2, e3, e4, e5, e6⟩ := heq
    simp [hgid, hph, hd, hn, hacc, hlk, hpe, hw, hmap, e2, e3, e4, e5, e6, hrole]

/-- A two-player snapshot in which the second player's role is the given
one; the viewer is the first player. -/
def viewBase (otherRole : Role) : GameState :=
  { presetWinnerState with
    players := [mkPlayer "a" Role.SUBJECT true, mkPlayer "b" otherRole true]
    phase := Phase.NIGHT
    winner := none }

/-- Witness for C9: flipping the other player's hidden role between TRAITOR
and SUBJECT produces the identical redacted view for viewer a. -/
theorem buildGameView_redaction_witness :
    agreeExceptOtherRoles (viewBase Role.TRAITOR) (viewBase Role.SUBJECT) "a" ∧
      ∃ view, buildGameView (viewBase Role.TRAITOR) "a" = Except.ok view ∧
        buildGameView (viewBase Role.SUBJECT) "a" = Except.ok view := by
  have hdiff : agreeExceptOtherRoles (viewBase Role.TRAITOR) (viewBase Role.SUBJECT) "a" := by
    refine ⟨rfl, rfl, rfl, rfl, rfl, rfl, rfl, rfl, ?_⟩
    refine List.Forall₂.cons ⟨?_, fun _ => rfl⟩
      (List.Forall₂.cons ⟨?_, fun hb => absurd hb (by decide)⟩ List.Forall₂.nil)
    · exact ⟨rfl, rfl, rfl, rfl, rfl, rfl⟩
    · exact ⟨rfl, rfl, rfl, rfl, rfl, rfl⟩
  obtain ⟨view, h1, h2, -⟩ := buildGameView_redaction (viewBase Role.TRAITOR)
    (viewBase Role.SUBJECT) "a" (mkPlayer "a" Role.SUBJECT true) hdiff rfl
  exact ⟨hdiff, view, h1, h2⟩

end Werewolf
